import Mathlib

/-!
# Verification of the standalone OSM importer service

Shallow embedding of `src/index.js` (a continuous OpenStreetMap → MongoDB
importer): the work-unit catalog (provinces × establishment types), the
cycle cursor advanced by `runContinuousImport`, the fetch adapter
`fetchFromOSM`, the normalize/dedupe/insert pipeline `insertToDatabase`,
and the `/api/recent` monitoring endpoint.

Modelling conventions:
* JavaScript numbers are modelled as `ℚ` (coordinates) and `Nat`/`Int`
  (counters, timestamps as abstract ticks).
* An absent JS value (`undefined`/`null`) is `Option.none`; JS truthiness
  of strings and numbers (`""` and `0` are falsy) is modelled explicitly.
* The MongoDB collection is a list of documents in insertion order.
* Exceptions thrown by external calls (axios, MongoDB) are modelled by an
  outcome/fault value supplied by the environment; a total Lean function
  mirrors the JS code's `try`/`catch` structure.
-/

namespace Importer

/-- A province entry of `ALL_PROVINCES`: name, coordinates, radius (km). -/
structure Province where
  name : String
  lat : ℚ
  lon : ℚ
  radius : ℚ
deriving DecidableEq, Repr

/-- The province catalog (`ALL_PROVINCES` in `src/index.js`). -/
def ALL_PROVINCES : List Province := [
  -- Metro Manila
  ⟨"Metro Manila", 14.5995, 120.9842, 30⟩,
  ⟨"Quezon City", 14.6760, 121.0437, 15⟩,
  ⟨"Manila", 14.5995, 120.9842, 10⟩,
  ⟨"Makati", 14.5547, 121.0244, 8⟩,
  ⟨"BGC", 14.5507, 121.0494, 3⟩,
  ⟨"Ortigas", 14.5860, 121.0566, 3⟩,
  -- Major cities
  ⟨"Cebu", 10.3157, 123.8854, 25⟩,
  ⟨"Davao", 7.0731, 125.6125, 25⟩,
  ⟨"Baguio", 16.4119, 120.5969, 15⟩,
  ⟨"Iloilo", 10.7202, 122.5621, 20⟩,
  ⟨"Cagayan de Oro", 8.4542, 124.6319, 15⟩,
  -- Other provinces
  ⟨"Laguna", 14.2691, 121.3507, 20⟩,
  ⟨"Cavite", 14.4791, 120.8970, 20⟩,
  ⟨"Bulacan", 14.7942, 120.8795, 20⟩,
  ⟨"Pampanga", 15.0794, 120.6200, 20⟩,
  ⟨"Rizal", 14.6037, 121.3084, 20⟩,
  ⟨"Batangas", 13.7565, 121.0583, 20⟩,
  ⟨"Negros Occidental", 10.6319, 122.9823, 20⟩,
  ⟨"Bohol", 9.8500, 124.1435, 20⟩,
  ⟨"Palawan", 9.8349, 118.7384, 25⟩]

/-- The establishment-type catalog (`ESTABLISHMENT_TYPES` in `src/index.js`). -/
def ESTABLISHMENT_TYPES : List String := [
  "restaurant", "cafe", "fast_food", "bar", "pub",
  "hospital", "clinic", "pharmacy", "dentist", "doctors",
  "school", "university", "college", "kindergarten",
  "bank", "atm", "bureau_de_change",
  "fuel", "charging_station", "car_wash", "car_rental",
  "supermarket", "convenience", "mall", "marketplace",
  "police", "fire_station", "post_office", "townhall",
  "library", "community_centre", "social_facility",
  "place_of_worship", "grave_yard",
  "hotel", "motel", "hostel", "guest_house",
  "park", "playground", "sports_centre", "swimming_pool",
  "cinema", "theatre", "arts_centre", "casino"]

theorem ALL_PROVINCES_length : ALL_PROVINCES.length = 20 := rfl

theorem ESTABLISHMENT_TYPES_length : ESTABLISHMENT_TYPES.length = 46 := rfl

/-- The mutable `state` object of the importer (`let state = {...}`).
`startTime` is omitted (wall-clock only); `lastImportTime` is an abstract
tick. -/
structure ImportState where
  isRunning : Bool
  currentProvinceIndex : Nat
  currentTypeIndex : Nat
  totalImported : Nat
  cycleCount : Nat
  errors : Nat
  lastImportTime : Option Nat
deriving DecidableEq, Repr

/-- The initial `state` value at process start. -/
def initialState : ImportState :=
  { isRunning := false, currentProvinceIndex := 0, currentTypeIndex := 0,
    totalImported := 0, cycleCount := 0, errors := 0, lastImportTime := none }

/-- The cursor-advance step at the end of the `runContinuousImport` loop
body (src/index.js lines 287-298): increment `currentTypeIndex`; past the
last type, reset it and increment `currentProvinceIndex`; past the last
province, reset it and increment `cycleCount`. -/
def advanceCursor (s : ImportState) : ImportState :=
  let t := s.currentTypeIndex + 1
  if t ≥ ESTABLISHMENT_TYPES.length then
    let p := s.currentProvinceIndex + 1
    if p ≥ ALL_PROVINCES.length then
      { s with currentTypeIndex := 0, currentProvinceIndex := 0,
               cycleCount := s.cycleCount + 1 }
    else
      { s with currentTypeIndex := 0, currentProvinceIndex := p }
  else
    { s with currentTypeIndex := t }

/-- The linear rank of the cursor position in the row-major catalog order. -/
def cursorRank (s : ImportState) : Nat :=
  s.currentProvinceIndex * 46 + s.currentTypeIndex

lemma advanceCursor_fields (s : ImportState)
    (hp : s.currentProvinceIndex < 20) (ht : s.currentTypeIndex < 46) :
    (advanceCursor s).currentProvinceIndex = ((cursorRank s + 1) % 920) / 46 ∧
    (advanceCursor s).currentTypeIndex = (cursorRank s + 1) % 46 ∧
    (advanceCursor s).cycleCount = s.cycleCount + (cursorRank s + 1) / 920 ∧
    (advanceCursor s).totalImported = s.totalImported ∧
    (advanceCursor s).errors = s.errors ∧
    (advanceCursor s).isRunning = s.isRunning ∧
    (advanceCursor s).lastImportTime = s.lastImportTime := by
  simp only [advanceCursor, ESTABLISHMENT_TYPES_length, ALL_PROVINCES_length, cursorRank]
  split_ifs with h1 h2 <;> dsimp only <;>
    refine ⟨?_, ?_, ?_, rfl, rfl, rfl, rfl⟩ <;> omega

lemma advanceCursor_iterate (n : Nat) (s : ImportState)
    (hp : s.currentProvinceIndex < 20) (ht : s.currentTypeIndex < 46) :
    (advanceCursor^[n] s).currentProvinceIndex = ((cursorRank s + n) % 920) / 46 ∧
    (advanceCursor^[n] s).currentTypeIndex = (cursorRank s + n) % 46 ∧
    (advanceCursor^[n] s).cycleCount = s.cycleCount + (cursorRank s + n) / 920 := by
  induction n with
  | zero =>
    simp only [Function.iterate_zero, id_eq, cursorRank]
    omega
  | succ n ih =>
    obtain ⟨ihp, iht, ihc⟩ := ih
    have hp2 : (advanceCursor^[n] s).currentProvinceIndex < 20 := by
      rw [ihp]; omega
    have ht2 : (advanceCursor^[n] s).currentTypeIndex < 46 := by
      rw [iht]; omega
    obtain ⟨h1, h2, h3, _, _, _, _⟩ :=
      advanceCursor_fields (advanceCursor^[n] s) hp2 ht2
    have hrank : cursorRank (advanceCursor^[n] s) = (cursorRank s + n) % 920 := by
      simp only [cursorRank] at ihp iht ⊢
      omega
    rw [Function.iterate_succ_apply', h1, h2, h3, hrank, ihc]
    refine ⟨?_, ?_, ?_⟩ <;> omega

/-- C1 (amended): for every in-range cursor state, applying the
cursor-advance step |Provinces| × |Types| = 20 × 46 = 920 times returns the
cursor to the original (provinceIndex, typeIndex) pair and increments
cycleCount by exactly 1. -/
theorem advance_full_cycle_returns (s : ImportState)
    (hp : s.currentProvinceIndex < 20) (ht : s.currentTypeIndex < 46) :
    (advanceCursor^[920] s).currentProvinceIndex = s.currentProvinceIndex ∧
    (advanceCursor^[920] s).currentTypeIndex = s.currentTypeIndex ∧
    (advanceCursor^[920] s).cycleCount = s.cycleCount + 1 := by
  obtain ⟨h1, h2, h3⟩ := advanceCursor_iterate 920 s hp ht
  have hr : cursorRank s = s.currentProvinceIndex * 46 + s.currentTypeIndex := rfl
  omega

/-- Witness for C1 at the initial cursor (0, 0). -/
theorem advance_full_cycle_returns_witness :
    (advanceCursor^[920] initialState).currentProvinceIndex =
      initialState.currentProvinceIndex ∧
    (advanceCursor^[920] initialState).currentTypeIndex =
      initialState.currentTypeIndex ∧
    (advanceCursor^[920] initialState).cycleCount =
      initialState.cycleCount + 1 :=
  advance_full_cycle_returns initialState (by decide) (by decide)

/-- C1 counterexample: applying the advance step 19 × 45 = 855 times (the
claim's stated catalog size) does not return the initial cursor to
(0, 0) nor increment cycleCount. -/
theorem advance_after_855_not_identity :
    ¬ ((advanceCursor^[855] initialState).currentProvinceIndex =
         initialState.currentProvinceIndex ∧
       (advanceCursor^[855] initialState).currentTypeIndex =
         initialState.currentTypeIndex ∧
       (advanceCursor^[855] initialState).cycleCount =
         initialState.cycleCount + 1) := by
  obtain ⟨h1, h2, h3⟩ := advanceCursor_iterate 855 initialState (by decide) (by decide)
  have hr : cursorRank initialState = 0 := rfl
  have e1 : initialState.currentProvinceIndex = 0 := rfl
  have e2 : initialState.currentTypeIndex = 0 := rfl
  have e3 : initialState.cycleCount = 0 := rfl
  omega

/-- C5: from any state satisfying the cursor invariant, the advance step
produces a state again satisfying 0 ≤ provinceIndex < |Provinces| and
0 ≤ typeIndex < |Types|, and leaves cycleCount unchanged or incremented
by one (monotonically non-decreasing); the step is a total function, hence
deterministic. -/
theorem advance_preserves_invariant (s : ImportState)
    (hp : s.currentProvinceIndex < ALL_PROVINCES.length)
    (ht : s.currentTypeIndex < ESTABLISHMENT_TYPES.length) :
    (advanceCursor s).currentProvinceIndex < ALL_PROVINCES.length ∧
    (advanceCursor s).currentTypeIndex < ESTABLISHMENT_TYPES.length ∧
    s.cycleCount ≤ (advanceCursor s).cycleCount ∧
    ((advanceCursor s).cycleCount = s.cycleCount ∨
     (advanceCursor s).cycleCount = s.cycleCount + 1) := by
  simp only [ALL_PROVINCES_length, ESTABLISHMENT_TYPES_length] at hp ht ⊢
  obtain ⟨h1, h2, h3, _, _, _, _⟩ := advanceCursor_fields s hp ht
  have hr : cursorRank s = s.currentProvinceIndex * 46 + s.currentTypeIndex := rfl
  omega

/-- Witness for C5 at the initial cursor state. -/
theorem advance_preserves_invariant_witness :
    (advanceCursor initialState).currentProvinceIndex < ALL_PROVINCES.length ∧
    (advanceCursor initialState).currentTypeIndex < ESTABLISHMENT_TYPES.length ∧
    initialState.cycleCount ≤ (advanceCursor initialState).cycleCount ∧
    ((advanceCursor initialState).cycleCount = initialState.cycleCount ∨
     (advanceCursor initialState).cycleCount = initialState.cycleCount + 1) :=
  advance_preserves_invariant initialState (by decide) (by decide)

/-! ## Raw elements, normalization and the record store -/

/-- A coordinate pair (the `center` object of an OSM way element). -/
structure Coord where
  lat : ℚ
  lon : ℚ
deriving DecidableEq, Repr

/-- The OSM tag fields consulted by `insertToDatabase`. A field is `none`
when the tag is absent (`undefined` in JS). `addrFull` and `addrStreet`
stand for the bracketed accesses `tags['addr:full']` and
`tags['addr:street']`. -/
structure OsmTags where
  name : Option String
  amenity : Option String
  addrFull : Option String
  addrStreet : Option String
  phone : Option String
  website : Option String
deriving DecidableEq, Repr

/-- A raw Overpass element: optional direct coordinates, optional center
coordinates (way geometries), optional tag object. -/
structure RawElement where
  lat : Option ℚ
  lon : Option ℚ
  center : Option Coord
  tags : Option OsmTags
deriving DecidableEq, Repr

/-- JS `a || b` on numbers where either side may be `undefined`: `0` and
absence are falsy, any other number is returned unchanged. -/
def jsOrNum (a b : Option ℚ) : Option ℚ :=
  match a with
  | some x => if x = 0 then b else some x
  | none => b

/-- JS `a || b` on an optional string with a string default: `undefined`
and `""` are falsy. -/
def jsOrStr (a : Option String) (b : String) : String :=
  match a with
  | some s => if s = "" then b else s
  | none => b

/-- JS `a || null` on an optional string: `""` collapses to `null`. -/
def jsOrNull (a : Option String) : Option String :=
  match a with
  | some s => if s = "" then none else some s
  | none => none

/-- JS optional chaining `est.tags?.f`. -/
def jsTag (e : RawElement) (f : OsmTags → Option String) : Option String :=
  match e.tags with
  | some t => f t
  | none => none

/-- `const lat = est.lat || est.center?.lat`. -/
def resolvedLat (e : RawElement) : Option ℚ :=
  jsOrNum e.lat (e.center.map Coord.lat)

/-- `const lon = est.lon || est.center?.lon`. -/
def resolvedLon (e : RawElement) : Option ℚ :=
  jsOrNum e.lon (e.center.map Coord.lon)

/-- A document of the `stores` collection (the only persisted entity). -/
structure StoreDoc where
  name : String
  category : String
  latitude : ℚ
  longitude : ℚ
  address : String
  phone : Option String
  website : Option String
  source : String
  coordinatesVerified : Bool
  coordinateSource : String
  addedAt : Nat
deriving DecidableEq, Repr

/-- The document literal of src/index.js lines 226-238, with `new Date()`
modelled as the abstract tick `now`. -/
def buildDoc (e : RawElement) (lat lon : ℚ) (now : Nat) : StoreDoc :=
  { name := jsOrStr (jsTag e OsmTags.name)
              (jsOrStr (jsTag e OsmTags.amenity) "Establishment"),
    category := jsOrStr (jsTag e OsmTags.amenity) "general",
    latitude := lat,
    longitude := lon,
    address := jsOrStr (jsTag e OsmTags.addrFull)
                 (jsOrStr (jsTag e OsmTags.addrStreet) "Address not available"),
    phone := jsOrNull (jsTag e OsmTags.phone),
    website := jsOrNull (jsTag e OsmTags.website),
    source := "OpenStreetMap",
    coordinatesVerified := true,
    coordinateSource := "OpenStreetMap",
    addedAt := now }

/-- The `stores` collection, in insertion order. -/
abbrev StoreColl := List StoreDoc

/-- `collection.findOne({ latitude, longitude, name })` as a Boolean
existence check on the dedup key. -/
def existsByKey (store : StoreColl) (lat lon : ℚ) (nm : String) : Bool :=
  store.any (fun d => decide (d.latitude = lat ∧ d.longitude = lon ∧ d.name = nm))

/-- Number of stored documents matching the dedup key. -/
def countByKey (store : StoreColl) (lat lon : ℚ) (nm : String) : Nat :=
  store.countP (fun d => decide (d.latitude = lat ∧ d.longitude = lon ∧ d.name = nm))

/-- A store interaction attempted while processing one element. -/
inductive StoreOp where
  | findOne (lat lon : ℚ) (nm : String)
  | insertOne (d : StoreDoc)
deriving DecidableEq, Repr

/-- Environment-supplied behaviour of the MongoDB calls made for one
element: both succeed, `findOne` throws, or `insertOne` throws (a store
outage during insert). -/
inductive StoreFault where
  | ok
  | findOneThrows
  | insertThrows
deriving DecidableEq, Repr

/-- One iteration of the `for (const est of establishments)` loop of
`insertToDatabase`, including its per-record `try`/`catch`: resolve the
coordinates (absence and `0` are both falsy), `continue` if either is
falsy, otherwise build the document, check for a duplicate, and insert if
absent. A store call that throws is swallowed by the empty `catch` block,
leaving every counter untouched. Returns (collection after, increment to
`inserted`, store calls attempted). -/
def processElement (store : StoreColl) (e : RawElement) (now : Nat)
    (fault : StoreFault) : StoreColl × Nat × List StoreOp :=
  match resolvedLat e, resolvedLon e with
  | some lat, some lon =>
    if lat = 0 ∨ lon = 0 then (store, 0, [])
    else
      let doc := buildDoc e lat lon now
      match fault with
      | StoreFault.findOneThrows => (store, 0, [StoreOp.findOne lat lon doc.name])
      | StoreFault.ok =>
        if existsByKey store lat lon doc.name then
          (store, 0, [StoreOp.findOne lat lon doc.name])
        else
          (store ++ [doc], 1,
            [StoreOp.findOne lat lon doc.name, StoreOp.insertOne doc])
      | StoreFault.insertThrows =>
        if existsByKey store lat lon doc.name then
          (store, 0, [StoreOp.findOne lat lon doc.name])
        else
          (store, 0, [StoreOp.findOne lat lon doc.name, StoreOp.insertOne doc])
  | _, _ => (store, 0, [])

/-- The loop of `insertToDatabase` over the fetched elements. The fault
script lists the store behaviour per element; missing entries mean the
calls succeed. Returns the final collection and the `inserted` count. -/
def insertLoop (now : Nat) :
    StoreColl → List RawElement → List StoreFault → StoreColl × Nat
  | store, [], _ => (store, 0)
  | store, e :: rest, faults =>
    let r := processElement store e now (faults.headD StoreFault.ok)
    let res := insertLoop now r.1 rest faults.tail
    (res.1, r.2.1 + res.2)

/-- `insertToDatabase(establishments)`: return 0 on an empty batch, else
run the per-element loop. -/
def insertToDatabase (store : StoreColl) (es : List RawElement)
    (faults : List StoreFault) (now : Nat) : StoreColl × Nat :=
  if es.length = 0 then (store, 0) else insertLoop now store es faults

/-! ## The fetch adapter -/

/-- Outcome of the axios POST to the Overpass API, supplied by the
environment: a 2xx response whose body may lack an `elements` array, or a
thrown error — a non-2xx `error.response.status`, an `ECONNABORTED`
timeout, or another network error. -/
inductive FetchOutcome where
  | success (elements : Option (List RawElement))
  | httpError (status : Nat)
  | timeout
  | networkError (msg : String)
deriving DecidableEq, Repr

/-- `fetchFromOSM`: on success return `response.data.elements || []`; a
thrown error is caught and never re-thrown — on HTTP 429 sleep 60000 ms
first, otherwise only log; return `[]`. Result: (elements returned,
milliseconds slept inside the catch). -/
def fetchFromOSM (outcome : FetchOutcome) : List RawElement × Nat :=
  match outcome with
  | FetchOutcome.success els => (els.getD [], 0)
  | FetchOutcome.httpError status =>
      if status = 429 then ([], 60000) else ([], 0)
  | FetchOutcome.timeout => ([], 0)
  | FetchOutcome.networkError _ => ([], 0)

/-! ## The orchestrator loop body -/

/-- One body of the `while (state.isRunning)` loop of
`runContinuousImport` (the `try` branch: fetch, insert, update the
counters, advance the cursor). The pacing sleep changes no state and is
not modelled; `now` is the abstract tick stored in `lastImportTime` and
on inserted documents. -/
def runIteration (s : ImportState) (store : StoreColl)
    (outcome : FetchOutcome) (faults : List StoreFault) (now : Nat) :
    ImportState × StoreColl :=
  let elements := (fetchFromOSM outcome).1
  let r := insertToDatabase store elements faults now
  let s2 := { s with totalImported := s.totalImported + r.2,
                     lastImportTime := some now }
  (advanceCursor s2, r.1)

/-- A finite prefix of the continuous import loop: one environment entry
(fetch outcome, store fault script, tick) per work unit. -/
def runLoop : ImportState → StoreColl →
    List (FetchOutcome × List StoreFault × Nat) → ImportState × StoreColl
  | s, store, [] => (s, store)
  | s, store, (o, faults, now) :: rest =>
    let r := runIteration s store o faults now
    runLoop r.1 r.2 rest

lemma advanceCursor_totalImported (s : ImportState) :
    (advanceCursor s).totalImported = s.totalImported := by
  simp only [advanceCursor]; split_ifs <;> rfl

lemma advanceCursor_errors (s : ImportState) :
    (advanceCursor s).errors = s.errors := by
  simp only [advanceCursor]; split_ifs <;> rfl

lemma runIteration_errors (s : ImportState) (store : StoreColl)
    (o : FetchOutcome) (faults : List StoreFault) (now : Nat) :
    (runIteration s store o faults now).1.errors = s.errors := by
  simp only [runIteration]
  rw [advanceCursor_errors]

lemma runLoop_errors (script : List (FetchOutcome × List StoreFault × Nat)) :
    ∀ (s : ImportState) (store : StoreColl),
      (runLoop s store script).1.errors = s.errors := by
  induction script with
  | nil => intro s store; rfl
  | cons entry rest ih =>
    intro s store
    obtain ⟨o, faults, now⟩ := entry
    rw [runLoop, ih]
    exact runIteration_errors s store o faults now

/-- C4: for every remote failure of the fetch (timeout, rate-limit
signal, network error, non-2xx response), `fetchFromOSM` returns the
empty element list and never re-raises; exactly on HTTP 429 it first
sleeps the fixed 60000 ms cool-down before returning. -/
theorem fetch_failure_returns_empty (o : FetchOutcome)
    (h : ∀ els, o ≠ FetchOutcome.success els) :
    (fetchFromOSM o).1 = [] ∧
    (fetchFromOSM o).2 =
      (if o = FetchOutcome.httpError 429 then 60000 else 0) := by
  cases o with
  | success els => exact absurd rfl (h els)
  | httpError status =>
    by_cases hs : status = 429 <;> simp [fetchFromOSM, hs]
  | timeout => simp [fetchFromOSM]
  | networkError m => simp [fetchFromOSM]

/-- Witness for C4 at the concrete HTTP 429 outcome. -/
theorem fetch_failure_returns_empty_witness :
    (fetchFromOSM (FetchOutcome.httpError 429)).1 = [] ∧
    (fetchFromOSM (FetchOutcome.httpError 429)).2 =
      (if FetchOutcome.httpError 429 = FetchOutcome.httpError 429
       then 60000 else 0) :=
  fetch_failure_returns_empty (FetchOutcome.httpError 429)
    (fun _ h => FetchOutcome.noConfusion h)

/-- C6: a raw element lacking both the direct and the center coordinate
pair is discarded: no store call is attempted, the collection and the
`inserted` count are unchanged, and — processed as a whole work unit —
`totalImported` and `errors` are unchanged as well. -/
theorem missing_coords_no_store_interaction (store : StoreColl)
    (e : RawElement) (now : Nat) (fault : StoreFault) (s : ImportState)
    (hlat : e.lat = none) (hlon : e.lon = none) (hcenter : e.center = none) :
    processElement store e now fault = (store, 0, []) ∧
    (runIteration s store (FetchOutcome.success (some [e]))
        [fault] now).1.totalImported = s.totalImported ∧
    (runIteration s store (FetchOutcome.success (some [e]))
        [fault] now).1.errors = s.errors ∧
    (runIteration s store (FetchOutcome.success (some [e]))
        [fault] now).2 = store := by
  have hpe : processElement store e now fault = (store, 0, []) := by
    simp [processElement, resolvedLat, resolvedLon, jsOrNum, hlat, hlon, hcenter]
  refine ⟨hpe, ?_, ?_, ?_⟩ <;>
    simp [runIteration, fetchFromOSM, insertToDatabase, insertLoop, hpe,
      advanceCursor_totalImported, advanceCursor_errors]

/-- An element with no coordinates at all. -/
def bareElem : RawElement := ⟨none, none, none, none⟩

/-- Witness for C6 at a concrete coordinate-free element. -/
theorem missing_coords_no_store_interaction_witness :
    processElement [] bareElem 5 StoreFault.ok = ([], 0, []) ∧
    (runIteration initialState [] (FetchOutcome.success (some [bareElem]))
        [StoreFault.ok] 5).1.totalImported = initialState.totalImported ∧
    (runIteration initialState [] (FetchOutcome.success (some [bareElem]))
        [StoreFault.ok] 5).1.errors = initialState.errors ∧
    (runIteration initialState [] (FetchOutcome.success (some [bareElem]))
        [StoreFault.ok] 5).2 = [] :=
  missing_coords_no_store_interaction [] bareElem 5 StoreFault.ok
    initialState rfl rfl rfl

/-- C9: an element whose resolved latitude or resolved longitude is a
present but zero coordinate is discarded exactly like an element with
missing coordinates: the `0` fails the JS truthiness test, so no store
call is attempted and nothing changes. -/
theorem zero_coordinate_discarded (store : StoreColl) (e : RawElement)
    (now : Nat) (fault : StoreFault)
    (h : resolvedLat e = some 0 ∨ resolvedLon e = some 0) :
    processElement store e now fault = (store, 0, []) := by
  rcases h with h | h
  · cases hlon : resolvedLon e with
    | none => simp [processElement, h, hlon]
    | some v => simp [processElement, h, hlon]
  · cases hlat : resolvedLat e with
    | none => simp [processElement, h, hlat]
    | some v => simp [processElement, h, hlat]

/-- An element whose center latitude is 0 (equator). -/
def zeroLatElem : RawElement :=
  ⟨none, some 3, some ⟨0, 3⟩,
   some ⟨some "Equator Cafe", some "cafe", none, none, none, none⟩⟩

/-- Witness for C9 at a concrete zero-latitude element. -/
theorem zero_coordinate_discarded_witness :
    processElement [] zeroLatElem 5 StoreFault.ok = ([], 0, []) :=
  zero_coordinate_discarded [] zeroLatElem 5 StoreFault.ok (Or.inl rfl)

/-- C7: normalizing an element with coordinates applies the fallbacks:
name falls back to the amenity (category) tag when no name tag is
present; category defaults to "general" when no amenity tag is present;
address falls back to the literal "Address not available" when neither
addr:full nor addr:street is present; phone and website are null when
absent. -/
theorem normalize_fallback_fields (e : RawElement) (lat lon : ℚ) (now : Nat) :
    (jsTag e OsmTags.name = none →
      ∀ c, jsTag e OsmTags.amenity = some c → c ≠ "" →
        (buildDoc e lat lon now).name = c) ∧
    (jsTag e OsmTags.amenity = none →
      (buildDoc e lat lon now).category = "general") ∧
    (jsTag e OsmTags.addrFull = none → jsTag e OsmTags.addrStreet = none →
      (buildDoc e lat lon now).address = "Address not available") ∧
    (jsTag e OsmTags.phone = none → (buildDoc e lat lon now).phone = none) ∧
    (jsTag e OsmTags.website = none →
      (buildDoc e lat lon now).website = none) := by
  refine ⟨?_, ?_, ?_, ?_, ?_⟩
  · intro h c hc hne
    simp [buildDoc, jsOrStr, h, hc, hne]
  · intro h
    simp [buildDoc, jsOrStr, h]
  · intro h1 h2
    simp [buildDoc, jsOrStr, h1, h2]
  · intro h
    simp [buildDoc, jsOrNull, h]
  · intro h
    simp [buildDoc, jsOrNull, h]

/-- An element with an amenity tag but no name tag (and no address,
phone, website tags). -/
def unnamedElem : RawElement :=
  ⟨some 1, some 2, none, some ⟨none, some "restaurant", none, none, none, none⟩⟩

/-- An element with a name tag but no amenity tag. -/
def untaggedElem : RawElement :=
  ⟨some 1, some 2, none, some ⟨some "X", none, none, none, none, none⟩⟩

/-- Witness for C7 at concrete elements exercising every fallback. -/
theorem normalize_fallback_fields_witness :
    (buildDoc unnamedElem 1 2 5).name = "restaurant" ∧
    (buildDoc untaggedElem 1 2 5).category = "general" ∧
    (buildDoc unnamedElem 1 2 5).address = "Address not available" ∧
    (buildDoc unnamedElem 1 2 5).phone = none ∧
    (buildDoc unnamedElem 1 2 5).website = none :=
  ⟨(normalize_fallback_fields unnamedElem 1 2 5).1 rfl "restaurant" rfl
      (by decide),
   (normalize_fallback_fields untaggedElem 1 2 5).2.1 rfl,
   (normalize_fallback_fields unnamedElem 1 2 5).2.2.1 rfl rfl,
   (normalize_fallback_fields unnamedElem 1 2 5).2.2.2.1 rfl,
   (normalize_fallback_fields unnamedElem 1 2 5).2.2.2.2 rfl⟩

lemma processElement_insertThrows (store : StoreColl) (e : RawElement)
    (now : Nat) :
    (processElement store e now StoreFault.insertThrows).1 = store ∧
    (processElement store e now StoreFault.insertThrows).2.1 = 0 := by
  cases hlat : resolvedLat e <;> cases hlon : resolvedLon e <;>
    (simp [processElement, hlat, hlon]; try (split_ifs <;> simp))

/-- An element with valid coordinates and a fresh dedup key, fetched
while the store's insert call is failing. -/
def outageElem : RawElement :=
  ⟨some 1, some 2, none, some ⟨some "Cafe Uno", some "cafe", none, none, none, none⟩⟩

/-- C2 counterexample: a simulated store outage during the insert of a
valid, non-duplicate record (the insert is genuinely attempted, as the
operation trace shows) leaves errorCount at 0 — it is not incremented
to 1 as the claim states. -/
theorem insert_outage_not_counted :
    (processElement [] outageElem 7 StoreFault.insertThrows).2.2 =
      [StoreOp.findOne 1 2 "Cafe Uno",
       StoreOp.insertOne (buildDoc outageElem 1 2 7)] ∧
    ¬ ((runIteration initialState [] (FetchOutcome.success (some [outageElem]))
          [StoreFault.insertThrows] 7).1.errors = initialState.errors + 1) := by
  refine ⟨rfl, fun hcontra => ?_⟩
  rw [runIteration_errors] at hcontra
  exact absurd hcontra (by decide)

/-- C2 (amended): when the store insert for a record throws (outage), the
per-record catch swallows the error silently: the record is skipped (the
collection and the inserted count are unchanged), processing continues
with the remaining records exactly as if the failed record were absent,
and errorCount is NOT incremented — it never changes, across any number
of work units. -/
theorem insert_failure_skipped_silently (store : StoreColl) (e : RawElement)
    (now : Nat) (rest : List RawElement) (faults : List StoreFault)
    (s : ImportState)
    (script : List (FetchOutcome × List StoreFault × Nat)) :
    (processElement store e now StoreFault.insertThrows).1 = store ∧
    (processElement store e now StoreFault.insertThrows).2.1 = 0 ∧
    insertLoop now store (e :: rest) (StoreFault.insertThrows :: faults)
      = insertLoop now store rest faults ∧
    (runLoop s store script).1.errors = s.errors := by
  obtain ⟨h1, h2⟩ := processElement_insertThrows store e now
  refine ⟨h1, h2, ?_, runLoop_errors script s store⟩
  have hcons : insertLoop now store (e :: rest)
      (StoreFault.insertThrows :: faults)
      = ((insertLoop now
            ((processElement store e now StoreFault.insertThrows).1)
            rest faults).1,
         (processElement store e now StoreFault.insertThrows).2.1
           + (insertLoop now
                ((processElement store e now StoreFault.insertThrows).1)
                rest faults).2) := by
    simp [insertLoop]
  rw [hcons, h1, h2]
  simp

lemma existsByKey_append (s1 s2 : StoreColl) (lat lon : ℚ) (nm : String) :
    existsByKey (s1 ++ s2) lat lon nm
      = (existsByKey s1 lat lon nm || existsByKey s2 lat lon nm) := by
  simp [existsByKey, List.any_append]

lemma countByKey_append (s1 s2 : StoreColl) (lat lon : ℚ) (nm : String) :
    countByKey (s1 ++ s2) lat lon nm
      = countByKey s1 lat lon nm + countByKey s2 lat lon nm := by
  simp [countByKey, List.countP_append]

lemma countByKey_eq_zero (store : StoreColl) (lat lon : ℚ) (nm : String)
    (h : existsByKey store lat lon nm = false) :
    countByKey store lat lon nm = 0 := by
  rw [existsByKey] at h
  rw [countByKey, List.countP_eq_zero]
  exact List.any_eq_false.mp h

/-- C3: a fetch returning two elements carrying an identical dedup key
(latitude, longitude, normalized name) not yet present in the store
results in exactly one stored document with that key: totalImported
rises by exactly 1, not 2, the duplicate is silently skipped, and the
error counter is untouched. -/
theorem duplicate_key_inserted_once (s : ImportState) (store : StoreColl)
    (e1 e2 : RawElement) (now : Nat) (lat lon : ℚ)
    (h1a : resolvedLat e1 = some lat) (h1b : resolvedLon e1 = some lon)
    (h2a : resolvedLat e2 = some lat) (h2b : resolvedLon e2 = some lon)
    (hlat : lat ≠ 0) (hlon : lon ≠ 0)
    (hname : (buildDoc e2 lat lon now).name = (buildDoc e1 lat lon now).name)
    (hfresh : existsByKey store lat lon (buildDoc e1 lat lon now).name = false) :
    (runIteration s store (FetchOutcome.success (some [e1, e2]))
        [] now).1.totalImported = s.totalImported + 1 ∧
    (runIteration s store (FetchOutcome.success (some [e1, e2]))
        [] now).1.errors = s.errors ∧
    countByKey
      (runIteration s store (FetchOutcome.success (some [e1, e2])) [] now).2
      lat lon (buildDoc e1 lat lon now).name = 1 := by
  have hp1 : processElement store e1 now StoreFault.ok
      = (store ++ [buildDoc e1 lat lon now], 1,
         [StoreOp.findOne lat lon (buildDoc e1 lat lon now).name,
          StoreOp.insertOne (buildDoc e1 lat lon now)]) := by
    simp [processElement, h1a, h1b, hlat, hlon, hfresh]
  have hkey2 : existsByKey (store ++ [buildDoc e1 lat lon now]) lat lon
      (buildDoc e2 lat lon now).name = true := by
    rw [hname, existsByKey_append, hfresh]
    simp [existsByKey, buildDoc]
  have hp2 : processElement (store ++ [buildDoc e1 lat lon now]) e2 now
      StoreFault.ok
      = (store ++ [buildDoc e1 lat lon now], 0,
         [StoreOp.findOne lat lon (buildDoc e2 lat lon now).name]) := by
    simp [processElement, h2a, h2b, hlat, hlon, hkey2]
  have hloop : insertLoop now store [e1, e2] []
      = (store ++ [buildDoc e1 lat lon now], 1) := by
    simp [insertLoop, hp1, hp2]
  have hcount : countByKey (store ++ [buildDoc e1 lat lon now]) lat lon
      (buildDoc e1 lat lon now).name = 1 := by
    rw [countByKey_append, countByKey_eq_zero store lat lon _ hfresh]
    simp [countByKey, buildDoc]
  refine ⟨?_, ?_, ?_⟩ <;>
    simp [runIteration, fetchFromOSM, insertToDatabase, hloop,
      advanceCursor_totalImported, advanceCursor_errors, hcount]

/-- An element whose dedup key repeats within one fetch result. -/
def dupElem : RawElement :=
  ⟨some 1, some 2, none, some ⟨some "Twin Cafe", some "cafe", none, none, none, none⟩⟩

/-- Witness for C3 at a fetch returning the same element twice. -/
theorem duplicate_key_inserted_once_witness :
    (runIteration initialState [] (FetchOutcome.success (some [dupElem, dupElem]))
        [] 7).1.totalImported = initialState.totalImported + 1 ∧
    (runIteration initialState [] (FetchOutcome.success (some [dupElem, dupElem]))
        [] 7).1.errors = initialState.errors ∧
    countByKey
      (runIteration initialState []
        (FetchOutcome.success (some [dupElem, dupElem])) [] 7).2
      1 2 (buildDoc dupElem 1 2 7).name = 1 :=
  duplicate_key_inserted_once initialState [] dupElem dupElem 7 1 2
    rfl rfl rfl rfl (by decide) (by decide) rfl rfl

/-! ## The GET /api/recent endpoint -/

/-- Document order produced by `.sort({ addedAt: -1 })`: `a` before `b`
when `a` is at least as new as `b`. -/
def newerFirst (a b : StoreDoc) : Prop := b.addedAt ≤ a.addedAt

instance : DecidableRel newerFirst := fun a b => Nat.decLe b.addedAt a.addedAt

instance : IsTotal StoreDoc newerFirst :=
  ⟨fun a b => Nat.le_total b.addedAt a.addedAt⟩

instance : IsTrans StoreDoc newerFirst :=
  ⟨fun _ _ _ h1 h2 => Nat.le_trans h2 h1⟩

/-- `.find({}).sort({ addedAt: -1 })`: the collection rearranged newest
first. -/
def mongoSortDesc (store : StoreColl) : StoreColl :=
  List.insertionSort newerFirst store

/-- `.limit(n)` on a cursor: `0` means no limit, a negative `n` behaves
like its absolute value (single batch). -/
def mongoLimit (n : Int) (xs : StoreColl) : StoreColl :=
  if n = 0 then xs else xs.take n.natAbs

/-- Value of a decimal digit character, else `none`. -/
def decDigitVal (c : Char) : Option Nat :=
  if '0' ≤ c ∧ c ≤ '9' then some (c.toNat - 48) else none

/-- Value of a hexadecimal digit character, else `none`. -/
def hexDigitVal (c : Char) : Option Nat :=
  if '0' ≤ c ∧ c ≤ '9' then some (c.toNat - 48)
  else if 'a' ≤ c ∧ c ≤ 'f' then some (c.toNat - 87)
  else if 'A' ≤ c ∧ c ≤ 'F' then some (c.toNat - 55)
  else none

/-- Consume leading digits, accumulating (digits consumed, value). -/
def takeDigits (dv : Char → Option Nat) (base : Nat) :
    List Char → Nat → Nat → Nat × Nat
  | [], cnt, acc => (cnt, acc)
  | c :: rest, cnt, acc =>
    match dv c with
    | some d => takeDigits dv base rest (cnt + 1) (acc * base + d)
    | none => (cnt, acc)

/-- JS `parseInt(s)` with the default radix: skip leading whitespace, an
optional sign, then either a `0x`/`0X` hexadecimal literal or leading
decimal digits; `NaN` (here `none`) when no digit is consumed. (JS
doubles lose precision above 2^53; exact integers are assumed.) -/
def jsParseIntStr (s : String) : Option Int :=
  let cs := s.data.dropWhile (fun c => c.isWhitespace)
  let signed : Int × List Char :=
    match cs with
    | '-' :: r => (-1, r)
    | '+' :: r => (1, r)
    | _ => (1, cs)
  match signed.2 with
  | '0' :: c :: r =>
    if c = 'x' ∨ c = 'X' then
      let p := takeDigits hexDigitVal 16 r 0 0
      if p.1 = 0 then none else some (signed.1 * p.2)
    else
      let p := takeDigits decDigitVal 10 signed.2 0 0
      if p.1 = 0 then none else some (signed.1 * p.2)
  | _ =>
    let p := takeDigits decDigitVal 10 signed.2 0 0
    if p.1 = 0 then none else some (signed.1 * p.2)

/-- `parseInt(req.query.limit)`: an absent query parameter stringifies to
"undefined", which parses to `NaN` (`none`). -/
def jsParseInt : Option String → Option Int
  | none => none
  | some s => jsParseIntStr s

/-- `const limit = parseInt(req.query.limit) || 100`: `NaN` and `0` are
falsy and fall back to the default 100. -/
def recentLimit (q : Option String) : Int :=
  match jsParseInt q with
  | none => 100
  | some n => if n = 0 then 100 else n

/-- The documents returned by the endpoint query. -/
def recentEstablishments (store : StoreColl) (q : Option String) : StoreColl :=
  mongoLimit (recentLimit q) (mongoSortDesc store)

/-- A JSON value, as serialized by `res.json`. -/
inductive Json where
  | null
  | bool (b : Bool)
  | num (q : ℚ)
  | str (s : String)
  | arr (xs : List Json)
  | obj (fields : List (String × Json))

/-- Serialization of an optional string field (`null` when absent). -/
def jsonOfOptStr : Option String → Json
  | some s => Json.str s
  | none => Json.null

/-- JSON serialization of a stored document; the `addedAt` tick is
rendered as a number. -/
def docJson (d : StoreDoc) : Json :=
  Json.obj [("name", Json.str d.name), ("category", Json.str d.category),
    ("latitude", Json.num d.latitude), ("longitude", Json.num d.longitude),
    ("address", Json.str d.address), ("phone", jsonOfOptStr d.phone),
    ("website", jsonOfOptStr d.website), ("source", Json.str d.source),
    ("coordinatesVerified", Json.bool d.coordinatesVerified),
    ("coordinateSource", Json.str d.coordinateSource),
    ("addedAt", Json.num d.addedAt)]

/-- The success body sent by GET /api/recent (src/index.js lines
154-178). -/
def recentResponse (store : StoreColl) (q : Option String) : Json :=
  Json.obj [("success", Json.bool true),
    ("count", Json.num ((recentEstablishments store q).length : ℚ)),
    ("establishments",
      Json.arr ((recentEstablishments store q).map docJson))]

/-- Top-level keys of a JSON object. -/
def jsonKeys : Json → List String
  | Json.obj fields => fields.map Prod.fst
  | _ => []

/-- C8 (amended): on success, GET /api/recent responds with a JSON body
of shape {success, count, establishments: [...]} — the array is under
the key "establishments", not "records" — where the array holds the
most recently inserted documents newest first (sorted by descending
addedAt, a limit-long prefix of a sorted permutation of the whole
collection) and count equals the length of that array. -/
theorem recent_success_shape (store : StoreColl) (q : Option String) :
    recentResponse store q =
      Json.obj [("success", Json.bool true),
        ("count", Json.num ((recentEstablishments store q).length : ℚ)),
        ("establishments",
          Json.arr ((recentEstablishments store q).map docJson))] ∧
    List.Sorted newerFirst (recentEstablishments store q) ∧
    recentEstablishments store q
      = mongoLimit (recentLimit q) (mongoSortDesc store) ∧
    (mongoSortDesc store).Perm store := by
  refine ⟨rfl, ?_, rfl, List.perm_insertionSort _ _⟩
  have hs : List.Sorted newerFirst (mongoSortDesc store) :=
    List.sorted_insertionSort _ _
  unfold recentEstablishments mongoLimit
  split_ifs
  · exact hs
  · exact List.Pairwise.sublist (List.take_sublist _ _) hs

/-- C8 counterexample: the response body has keys success, count and
establishments; it has no "records" key, contradicting the claimed
{success, count, records} shape. -/
theorem recent_response_no_records_key :
    jsonKeys (recentResponse [] none)
      = ["success", "count", "establishments"] ∧
    ¬ ("records" ∈ jsonKeys (recentResponse [] none)) :=
  ⟨rfl, by decide⟩

/-- C10: a limit query parameter that is absent, or parses to `NaN`
(non-numeric) or `0` — JS-falsy values — is replaced by the default
limit 100; in particular limit=0 does not return zero records but up to
100. -/
theorem falsy_limit_defaults_to_100 (q : Option String)
    (h : jsParseInt q = none ∨ jsParseInt q = some 0) :
    recentLimit q = 100 ∧
    ∀ store : StoreColl,
      (recentEstablishments store q).length = min 100 store.length := by
  have hl : recentLimit q = 100 := by
    rcases h with h | h <;> simp [recentLimit, h]
  refine ⟨hl, fun store => ?_⟩
  have hperm : (mongoSortDesc store).length = store.length :=
    (List.perm_insertionSort _ store).length_eq
  simp [recentEstablishments, mongoLimit, hl, List.length_take, hperm]

/-- Witness for C10 at the concrete falsy parameters "0", "abc" and an
absent parameter. -/
theorem falsy_limit_defaults_to_100_witness :
    (recentLimit (some "0") = 100 ∧
      ∀ store : StoreColl,
        (recentEstablishments store (some "0")).length
          = min 100 store.length) ∧
    (recentLimit (some "abc") = 100 ∧
      ∀ store : StoreColl,
        (recentEstablishments store (some "abc")).length
          = min 100 store.length) ∧
    (recentLimit none = 100 ∧
      ∀ store : StoreColl,
        (recentEstablishments store none).length = min 100 store.length) :=
  ⟨falsy_limit_defaults_to_100 (some "0") (Or.inr (by decide)),
   falsy_limit_defaults_to_100 (some "abc") (Or.inl (by decide)),
   falsy_limit_defaults_to_100 none (Or.inl rfl)⟩

end Importer
